import Mathlib

/-!
Verification of the take_break timer application.

Shallow embedding of the core of the repository:
  - `src/services/timer.py` (`TimerManager`)
  - `src/app.py` (`App` orchestration: quit guard, key handling, tick)
  - `src/services/position.py` (`WidgetPosition`, `calculate_position`,
    `get_next_position`)
  - `src/config/settings.py` + `src/db/db.py` (settings over a SQLite
    key-value table)

Timestamps are modelled as integers (seconds since an arbitrary epoch);
`datetime.now(UTC)` becomes an explicit `now : Int` argument,
`timedelta(minutes=m)` becomes `60 * m`.
-/

namespace TakeBreak

/-- Modelled from the spec: `src/constants/settings.py` is absent from the
sources (only imported). The spec fixes the break duration at 5 minutes. -/
def BREAK_DURATION_MIN : Int := 5

/-- Modelled from the spec: `src/constants/settings.py` is absent from the
sources. The spec gives 45 minutes as the hardcoded default work duration. -/
def DEFAULT_WORK_DURATION_MIN : Int := 45

/-- Modelled from the spec: `src/constants/settings.py` is absent from the
sources. The spec enumerates the allowed work durations as {25, 45}. -/
def AVAILABLE_WORK_MODES : List Int := [25, 45]

/-! ## TimerManager (src/services/timer.py) -/

/-- The mutable fields of `TimerManager`. -/
structure TimerState where
  work_duration : Int
  break_duration : Int
  work_end_time : Option Int
  break_end_time : Option Int
  deriving Repr, DecidableEq

namespace TimerState

/-- `TimerManager.__init__`. -/
def init : TimerState :=
  { work_duration := DEFAULT_WORK_DURATION_MIN
    break_duration := BREAK_DURATION_MIN
    work_end_time := none
    break_end_time := none }

/-- `TimerManager.start_work(duration)`: optionally update `work_duration`,
then set `work_end_time = now + timedelta(minutes=work_duration)`. -/
def start_work (s : TimerState) (now : Int) (duration : Option Int) : TimerState :=
  let wd := match duration with
    | some d => d
    | none => s.work_duration
  { s with work_duration := wd, work_end_time := some (now + 60 * wd) }

/-- `TimerManager.start_break()`: set
`break_end_time = now + timedelta(minutes=break_duration)` and clear
`work_end_time`. -/
def start_break (s : TimerState) (now : Int) : TimerState :=
  { s with break_end_time := some (now + 60 * s.break_duration)
           work_end_time := none }

/-- `TimerManager.end_break()`: clear `break_end_time`. -/
def end_break (s : TimerState) : TimerState :=
  { s with break_end_time := none }

/-- `TimerManager.get_work_remaining()`: `None` when inactive, else
`work_end_time - now`. -/
def get_work_remaining (s : TimerState) (now : Int) : Option Int :=
  match s.work_end_time with
  | none => none
  | some t => some (t - now)

/-- `TimerManager.get_break_remaining()`. -/
def get_break_remaining (s : TimerState) (now : Int) : Option Int :=
  match s.break_end_time with
  | none => none
  | some t => some (t - now)

/-- `TimerManager.is_work_active()`: `work_end_time is not None`. -/
def is_work_active (s : TimerState) : Bool :=
  s.work_end_time.isSome

/-- `TimerManager.is_break_active()`: `break_end_time is not None`. -/
def is_break_active (s : TimerState) : Bool :=
  s.break_end_time.isSome

/-- `TimerManager.is_work_expired()`: `False` when inactive, else
`now >= work_end_time`. -/
def is_work_expired (s : TimerState) (now : Int) : Bool :=
  match s.work_end_time with
  | none => false
  | some t => decide (t ≤ now)

/-- `TimerManager.is_break_expired()`: `False` when inactive, else
`now >= break_end_time`. -/
def is_break_expired (s : TimerState) (now : Int) : Bool :=
  match s.break_end_time with
  | none => false
  | some t => decide (t ≤ now)

end TimerState

end TakeBreak

namespace TakeBreak

/-! ## Position service (src/services/position.py) -/

/-- The `WidgetPosition` `StrEnum`, in declaration order. -/
inductive WidgetPosition where
  | TOP_LEFT
  | TOP_CENTER
  | TOP_RIGHT
  | BOTTOM_LEFT
  | BOTTOM_RIGHT
  | BOTTOM_CENTER
  deriving Repr, DecidableEq, Inhabited

/-- The string value of each member (`StrEnum` with `auto()` assigns the
lower-cased member name). -/
def WidgetPosition.value : WidgetPosition → String
  | .TOP_LEFT => "top_left"
  | .TOP_CENTER => "top_center"
  | .TOP_RIGHT => "top_right"
  | .BOTTOM_LEFT => "bottom_left"
  | .BOTTOM_RIGHT => "bottom_right"
  | .BOTTOM_CENTER => "bottom_center"

/-- Helper for `pyIn`: does `pat` occur as a contiguous run of `s`? -/
def strContainsAux (pat : List Char) : List Char → Bool
  | [] => pat.isEmpty
  | c :: rest => pat.isPrefixOf (c :: rest) || strContainsAux pat rest

/-- Python's substring test `pat in s`. -/
def pyIn (pat s : String) : Bool :=
  strContainsAux pat.toList s.toList

/-- Python's `str.lower()` (ASCII case mapping, which covers every character
these settings and position names use). -/
def pyLower (s : String) : String :=
  String.mk (s.data.map Char.toLower)

/-- Digit-accumulation loop of `pyInt`. -/
def pyDigitsAux (acc : Nat) : List Char → Option Nat
  | [] => some acc
  | c :: rest =>
    if c.isDigit then pyDigitsAux (10 * acc + (c.toNat - Char.toNat '0')) rest
    else none

/-- A non-empty run of decimal digits, as in Python's `int()`. -/
def pyParseDigits : List Char → Option Nat
  | [] => none
  | l => pyDigitsAux 0 l

/-- Python's `int(s)` on canonical integer strings: an optional minus sign
followed by decimal digits; anything else fails (raises `ValueError`, which
`Database.get_int` catches). -/
def pyInt (s : String) : Option Int :=
  match s.data with
  | '-' :: rest => (pyParseDigits rest).map (fun n => -(n : Int))
  | l => (pyParseDigits l).map (fun n => (n : Int))

/-- Python's `str(i)` on an integer: minus sign for negatives, then the
decimal digits. -/
def pyStr (i : Int) : String :=
  if i < 0 then "-" ++ Nat.repr i.natAbs else Nat.repr i.natAbs

/-- `QPoint(x, y)`. -/
structure QPoint where
  x : Int
  y : Int
  deriving Repr, DecidableEq

/-- `calculate_position`: lower-case the position's value, put `y` at the top
edge for "top" variants else at the bottom edge, and `x` at the left edge,
right edge, or horizontal centre (Python floor division `//`, hence
`Int.fdiv`). -/
def calculate_position (position : WidgetPosition)
    (screen_width screen_height widget_width widget_height : Int) : QPoint :=
  let pos_name := pyLower position.value
  let y : Int := if pyIn "top" pos_name then 0 else screen_height - widget_height
  let x : Int :=
    if pyIn "left" pos_name then 0
    else if pyIn "right" pos_name then screen_width - widget_width
    else (screen_width - widget_width).fdiv 2
  ⟨x, y⟩

/-- `list(WidgetPosition)`: the members in declaration order. -/
def positionsList : List WidgetPosition :=
  [.TOP_LEFT, .TOP_CENTER, .TOP_RIGHT, .BOTTOM_LEFT, .BOTTOM_RIGHT, .BOTTOM_CENTER]

/-- `get_next_position`: index of `current` in the member list, plus one
modulo the list length. -/
def get_next_position (current : WidgetPosition) : WidgetPosition :=
  let positions := positionsList
  let current_index := positions.indexOf current
  let next_index := (current_index + 1) % positions.length
  positions.getD next_index .TOP_LEFT

/-! ## Settings persistence (src/db/db.py, src/config/settings.py) -/

/-- The SQLite `settings` table: `key TEXT PRIMARY KEY, value TEXT NOT NULL`,
modelled as a partial map from keys to values. -/
def Database := String → Option String

namespace Database

/-- A database with no rows. -/
def empty : Database := fun _ => none

/-- `Database.get(key)` with Python default `None`: the stored row if the key
is present. Callers supply their own default on a `none` result. -/
def get (db : Database) (key : String) : Option String :=
  db key

/-- `Database.set(key, value)`: SQL upsert, storing `str(value)` (callers of
the model pass the already-stringified value). -/
def set (db : Database) (key value : String) : Database :=
  fun k => if k = key then some value else db k

/-- `Database.get_int(key, default)`: default when the key is absent or the
stored text does not parse as an integer. -/
def get_int (db : Database) (key : String) (default : Int) : Int :=
  match db.get key with
  | none => default
  | some v =>
    match pyInt v with
    | some n => n
    | none => default

theorem get_set_same (db : Database) (k v : String) :
    (db.set k v).get k = some v := by
  simp [get, set]

end Database

namespace Settings

/-- `SettingsKey.FOCUS`. -/
def FOCUS : String := "focus"

/-- `SettingsKey.WORK_DURATION`. -/
def WORK_DURATION : String := "work_duration"

/-- `Settings.get_focus()`: stored text, defaulting to `""`. -/
def get_focus (db : Database) : String :=
  (db.get FOCUS).getD ""

/-- `Settings.save_focus(focus)`. -/
def save_focus (db : Database) (focus : String) : Database :=
  db.set FOCUS focus

/-- `Settings.get_work_duration()`. -/
def get_work_duration (db : Database) : Int :=
  db.get_int WORK_DURATION DEFAULT_WORK_DURATION_MIN

/-- `Settings.set_work_duration(duration)`: durations outside
`AVAILABLE_WORK_MODES` are replaced by the hardcoded default 45 before
storing. -/
def set_work_duration (db : Database) (duration : Int) : Database :=
  let d := if duration ∈ AVAILABLE_WORK_MODES then duration else 45
  db.set WORK_DURATION (pyStr d)

end Settings

/-! ## Application orchestrator (src/app.py) -/

/-- The mutable fields of `App` that the orchestration operations touch:
the timer manager, the settings database, the cached work duration and focus
text, the extra-rest marker, overlay and widget presentation flags, whether
the periodic Qt timer runs, and whether `QApplication.quit()` was invoked. -/
structure AppState where
  timer : TimerState
  db : Database
  work_duration : Int
  focus_text : String
  extra_rest_start : Option Int
  overlay_is_blocking : Bool
  overlay_visible : Bool
  timer_widget_visible : Bool
  qt_timer_running : Bool
  exited : Bool

/-- Key press events the overlay handler distinguishes: `Qt.Key.Key_Return`
versus everything else. -/
inductive Key where
  | key_return
  | other
  deriving Repr, DecidableEq

namespace App

/-- `App.quit()`: refused (state untouched, no exit) while a break is active;
otherwise unhooks the keyboard and quits the Qt application. -/
def quit (s : AppState) : AppState :=
  if s.timer.is_break_active then s
  else { s with exited := true }

/-- `App.start_work_timer()`: refused while a break is active; otherwise
re-reads the work duration from settings, clears the extra-rest marker,
starts the work timer, shows the timer widget and starts the periodic Qt
timer. -/
def start_work_timer (s : AppState) (now : Int) : AppState :=
  if s.timer.is_break_active then s
  else
    let wd := Settings.get_work_duration s.db
    { s with
      work_duration := wd
      extra_rest_start := none
      timer := s.timer.start_work now (some wd)
      timer_widget_visible := true
      qt_timer_running := true }

/-- `App._handle_key_press(event)`: on Enter, refused while a break is
active; otherwise reads the overlay's focus input, persists it, hides the
overlay and calls `start_work_timer`. -/
def handle_key_press (s : AppState) (now : Int) (key : Key)
    (overlay_input : String) : AppState :=
  match key with
  | .other => s
  | .key_return =>
    if s.timer.is_break_active then s
    else
      start_work_timer
        { s with
          focus_text := overlay_input
          db := Settings.save_focus s.db overlay_input
          overlay_visible := false }
        now

/-- `App.start_break_timer()`: starts the break in the timer manager and
shows the blocking overlay. -/
def start_break_timer (s : AppState) (now : Int) : AppState :=
  { s with
    timer := s.timer.start_break now
    overlay_is_blocking := true
    overlay_visible := true }

/-- `App.end_break()`: ends the break, records the extra-rest marker,
unblocks and re-shows the initial overlay, hides the timer widget and stops
the periodic Qt timer. -/
def end_break (s : AppState) (now : Int) : AppState :=
  { s with
    timer := s.timer.end_break
    extra_rest_start := some now
    overlay_is_blocking := false
    overlay_visible := true
    timer_widget_visible := false
    qt_timer_running := false }

/-- `App._on_timer_timeout()`: on work expiry start the break; then, on break
expiry, end the break. The remaining branches only repaint remaining-time
displays and change no state. -/
def on_timer_timeout (s : AppState) (now : Int) : AppState :=
  let s1 := if s.timer.is_work_expired now then start_break_timer s now else s
  if s1.timer.is_break_expired now then end_break s1 now else s1

end App

/-- States of a `TimerManager` reachable by arbitrary sequences of the raw
transition operations `start_work`, `start_break` and `end_break`, invoked at
arbitrary times and with arbitrary durations. -/
inductive ReachableRaw : TimerState → Prop where
  | init : ReachableRaw TimerState.init
  | start_work (now : Int) (d : Option Int) {s : TimerState} :
      ReachableRaw s → ReachableRaw (s.start_work now d)
  | start_break (now : Int) {s : TimerState} :
      ReachableRaw s → ReachableRaw (s.start_break now)
  | end_break {s : TimerState} :
      ReachableRaw s → ReachableRaw s.end_break

/-- States reachable when `start_work` is only invoked while no break is
active — the guard `App.start_work_timer` (and the Enter-key handler)
enforces before calling `TimerManager.start_work`. -/
inductive ReachableGuarded : TimerState → Prop where
  | init : ReachableGuarded TimerState.init
  | start_work (now : Int) (d : Option Int) {s : TimerState} :
      ReachableGuarded s → s.is_break_active = false →
      ReachableGuarded (s.start_work now d)
  | start_break (now : Int) {s : TimerState} :
      ReachableGuarded s → ReachableGuarded (s.start_break now)
  | end_break {s : TimerState} :
      ReachableGuarded s → ReachableGuarded s.end_break

/-- An idle application state, used as a concrete evaluation point. -/
def sampleIdleApp : AppState :=
  { timer := TimerState.init
    db := Database.empty
    work_duration := 45
    focus_text := ""
    extra_rest_start := none
    overlay_is_blocking := false
    overlay_visible := true
    timer_widget_visible := false
    qt_timer_running := false
    exited := false }

/-- A break-active application state (break started at time 0). -/
def sampleBreakApp : AppState :=
  { sampleIdleApp with
    timer := TimerState.init.start_break 0
    overlay_is_blocking := true }

/-- A work-active application state (25-minute work phase started at 0). -/
def sampleWorkApp : AppState :=
  { sampleIdleApp with
    timer := TimerState.init.start_work 0 (some 25)
    timer_widget_visible := true
    qt_timer_running := true }

/-- **C10**: the expiry queries never report an inactive phase as expired:
whenever `work_end_time` is `None`, `is_work_expired()` returns `False`, and
whenever `break_end_time` is `None`, `is_break_expired()` returns `False`. -/
theorem expired_implies_active (s : TimerState) (now : Int) :
    (s.work_end_time = none → s.is_work_expired now = false) ∧
    (s.break_end_time = none → s.is_break_expired now = false) := by
  constructor
  · intro h
    simp [TimerState.is_work_expired, h]
  · intro h
    simp [TimerState.is_break_expired, h]

/-- Witness for C10: the initial (idle) state reports neither phase expired. -/
theorem expired_implies_active_witness :
    TimerState.init.is_work_expired 0 = false ∧
    TimerState.init.is_break_expired 0 = false :=
  ⟨(expired_implies_active TimerState.init 0).1 rfl,
   (expired_implies_active TimerState.init 0).2 rfl⟩

/-- **C4**: after `start_work(d)` at time `t0`, `get_work_remaining()` at any
`now` equals `(t0 + 60*d) - now`; it is strictly decreasing as `now` advances;
it is `≤ 0` exactly when `now ≥ t0 + 60*d`; and `is_work_expired()` is `true`
exactly when `now ≥ t0 + 60*d`. -/
theorem monotonic_expiry (s : TimerState) (t0 d : Int) :
    (∀ now, (s.start_work t0 (some d)).get_work_remaining now
      = some (t0 + 60 * d - now)) ∧
    (∀ n1 n2 r1 r2, n1 < n2 →
      (s.start_work t0 (some d)).get_work_remaining n1 = some r1 →
      (s.start_work t0 (some d)).get_work_remaining n2 = some r2 →
      r2 < r1) ∧
    (∀ now r, (s.start_work t0 (some d)).get_work_remaining now = some r →
      (r ≤ 0 ↔ t0 + 60 * d ≤ now)) ∧
    (∀ now, (s.start_work t0 (some d)).is_work_expired now = true
      ↔ t0 + 60 * d ≤ now) := by
  refine ⟨?_, ?_, ?_, ?_⟩
  · intro now
    simp [TimerState.start_work, TimerState.get_work_remaining]
  · intro n1 n2 r1 r2 hlt h1 h2
    simp [TimerState.start_work, TimerState.get_work_remaining] at h1 h2
    omega
  · intro now r h
    simp [TimerState.start_work, TimerState.get_work_remaining] at h
    omega
  · intro now
    simp [TimerState.start_work, TimerState.is_work_expired]

/-- Witness for C4: starting a 25-minute work phase at `t0 = 0`, the remaining
time at `now = 10` is `1490`, remaining values at 10 and 20 decrease, remaining
at 1500 is non-positive, and expiry holds exactly at 1500. -/
theorem monotonic_expiry_witness :
    (TimerState.init.start_work 0 (some 25)).get_work_remaining 10 = some 1490
    ∧ (1490 : Int) < 1500
    ∧ ((TimerState.init.start_work 0 (some 25)).is_work_expired 1500 = true) := by
  have h := monotonic_expiry TimerState.init 0 25
  refine ⟨?_, by decide, ?_⟩
  · have := h.1 10
    simpa using this
  · exact (h.2.2.2 1500).mpr (by omega)

/-- **C1 counterexample**: under arbitrary sequences of the raw
`TimerManager` operations the mutual-exclusion invariant fails:
`start_break` at time 0 followed by `start_work` at time 10 (which does not
clear `break_end_time`) reaches a state where `is_work_active()` and
`is_break_active()` are both true. -/
theorem mutual_exclusion_counterexample :
    ReachableRaw ((TimerState.init.start_break 0).start_work 10 (some 25)) ∧
    ((TimerState.init.start_break 0).start_work 10 (some 25)).is_work_active
      = true ∧
    ((TimerState.init.start_break 0).start_work 10 (some 25)).is_break_active
      = true :=
  ⟨.start_work 10 (some 25) (.start_break 0 .init), rfl, rfl⟩

/-- **C1 (amended)**: for every `TimerManager` state reachable from
initialization by sequences in which `start_work` is only invoked while
`is_break_active()` is false (the guard `App.start_work_timer` enforces),
`is_work_active()` and `is_break_active()` are never both true. -/
theorem mutual_exclusion_guarded (s : TimerState) (h : ReachableGuarded s) :
    ¬(s.is_work_active = true ∧ s.is_break_active = true) := by
  induction h with
  | init =>
    simp [TimerState.init, TimerState.is_work_active, TimerState.is_break_active]
  | start_work now d hr hg ih =>
    intro hc
    have hb := hc.2
    simp only [TimerState.is_break_active, TimerState.start_work] at hb hg
    simp [hg] at hb
  | start_break now hr ih =>
    intro hc
    have hw := hc.1
    simp [TimerState.start_break, TimerState.is_work_active] at hw
  | end_break hr ih =>
    intro hc
    have hb := hc.2
    simp [TimerState.end_break, TimerState.is_break_active] at hb

/-- Witness for the amended C1: the initial state is guardedly reachable and
satisfies mutual exclusion. -/
theorem mutual_exclusion_guarded_witness :
    ¬(TimerState.init.is_work_active = true ∧
      TimerState.init.is_break_active = true) :=
  mutual_exclusion_guarded TimerState.init .init

/-- **C2**: while `is_break_active()` is true, `App.quit()` is rejected and
changes nothing (in particular no `TimerManager` field and no exit); while it
is false, quit proceeds and shuts the application down. -/
theorem quit_blocked_during_break (s : AppState) :
    (s.timer.is_break_active = true → App.quit s = s) ∧
    (s.timer.is_break_active = false →
      App.quit s = { s with exited := true }) := by
  constructor <;> intro h <;> simp [App.quit, h]

/-- Witness for C2: quitting during a concrete break leaves the state intact;
quitting from the concrete idle state exits. -/
theorem quit_blocked_during_break_witness :
    App.quit sampleBreakApp = sampleBreakApp ∧
    App.quit sampleIdleApp = { sampleIdleApp with exited := true } :=
  ⟨(quit_blocked_during_break sampleBreakApp).1 rfl,
   (quit_blocked_during_break sampleIdleApp).2 rfl⟩

/-- **C3**: a tick at time `now` with `work_end_time = t` set and `now ≥ t`
clears `work_end_time`, sets `break_end_time = now + 300` (five minutes), and
leaves `is_break_active()` true. -/
theorem work_expiry_tick (s : AppState) (t now : Int)
    (hw : s.timer.work_end_time = some t) (hexp : t ≤ now)
    (hb : s.timer.break_duration = BREAK_DURATION_MIN) :
    (App.on_timer_timeout s now).timer.work_end_time = none ∧
    (App.on_timer_timeout s now).timer.break_end_time = some (now + 300) ∧
    (App.on_timer_timeout s now).timer.is_break_active = true := by
  have hwe : s.timer.is_work_expired now = true := by
    simp [TimerState.is_work_expired, hw]
    omega
  have hbe : (App.start_break_timer s now).timer.is_break_expired now = false := by
    simp [App.start_break_timer, TimerState.start_break,
      TimerState.is_break_expired, hb, BREAK_DURATION_MIN]
  simp only [App.on_timer_timeout, hwe, if_true, hbe, if_false]
  refine ⟨?_, ?_, ?_⟩ <;>
    simp [App.start_break_timer, TimerState.start_break,
      TimerState.is_break_active, hb, BREAK_DURATION_MIN]

/-- Witness for C3: in the concrete work state whose 25-minute phase started
at 0, the tick at 1500 switches to a break ending at 1800. -/
theorem work_expiry_tick_witness :
    (App.on_timer_timeout sampleWorkApp 1500).timer.work_end_time = none ∧
    (App.on_timer_timeout sampleWorkApp 1500).timer.break_end_time
      = some 1800 ∧
    (App.on_timer_timeout sampleWorkApp 1500).timer.is_break_active = true := by
  have h := work_expiry_tick sampleWorkApp 1500 1500
    (by norm_num [sampleWorkApp, sampleIdleApp, TimerState.init,
      TimerState.start_work])
    le_rfl rfl
  refine ⟨h.1, ?_, h.2.2⟩
  rw [h.2.1]
  norm_num

/-- **C5**: while `is_break_active()` is true, both the Enter-key handler and
`start_work_timer` leave the whole application state — in particular every
`TimerManager` field — unchanged. -/
theorem work_start_rejected_during_break (s : AppState) (now : Int)
    (input : String) (h : s.timer.is_break_active = true) :
    App.start_work_timer s now = s ∧
    App.handle_key_press s now Key.key_return input = s := by
  constructor
  · simp [App.start_work_timer, h]
  · simp [App.handle_key_press, h]

/-- Witness for C5: in the concrete break state, the Enter handler and
`start_work_timer` at time 10 change nothing. -/
theorem work_start_rejected_during_break_witness :
    App.start_work_timer sampleBreakApp 10 = sampleBreakApp ∧
    App.handle_key_press sampleBreakApp 10 Key.key_return "focus"
      = sampleBreakApp :=
  work_start_rejected_during_break sampleBreakApp 10 "focus" rfl

/-- **C7**: every anchor is in the member list; applying `get_next_position`
six times to any anchor returns that anchor; and the images of the six
anchors under `get_next_position` are pairwise distinct (each anchor is
visited exactly once per cycle). -/
theorem position_cycle_closure :
    (∀ p : WidgetPosition, p ∈ positionsList) ∧
    (∀ p : WidgetPosition, get_next_position^[6] p = p) ∧
    (positionsList.map get_next_position).Nodup := by
  refine ⟨?_, ?_, ?_⟩
  · intro p
    cases p <;> simp [positionsList]
  · intro p
    cases p <;> rfl
  · decide

/-- **C8**: `calculate_position` places the widget at `y = 0` for top
variants and `y = screen_height - widget_height` for bottom variants, and at
`x = 0` for left variants, `x = screen_width - widget_width` for right
variants, and the floored horizontal centre for center variants, for all
integer dimensions and all six anchors. -/
theorem calculate_position_spec (sw sh ww wh : Int) :
    calculate_position .TOP_LEFT sw sh ww wh = ⟨0, 0⟩ ∧
    calculate_position .TOP_CENTER sw sh ww wh = ⟨(sw - ww).fdiv 2, 0⟩ ∧
    calculate_position .TOP_RIGHT sw sh ww wh = ⟨sw - ww, 0⟩ ∧
    calculate_position .BOTTOM_LEFT sw sh ww wh = ⟨0, sh - wh⟩ ∧
    calculate_position .BOTTOM_RIGHT sw sh ww wh = ⟨sw - ww, sh - wh⟩ ∧
    calculate_position .BOTTOM_CENTER sw sh ww wh = ⟨(sw - ww).fdiv 2, sh - wh⟩ :=
  ⟨rfl, rfl, rfl, rfl, rfl, rfl⟩

/-- **C6**: `set_work_duration` stores an allowed duration unchanged and
replaces any other duration by the default 45, so a subsequent
`get_work_duration()` returns the stored value. -/
theorem duration_validation (db : Database) (d : Int) :
    Settings.get_work_duration (Settings.set_work_duration db d)
      = if d ∈ AVAILABLE_WORK_MODES then d else 45 := by
  by_cases hd : d ∈ AVAILABLE_WORK_MODES
  · have hmem : d = 25 ∨ d = 45 := by
      simpa [AVAILABLE_WORK_MODES] using hd
    rcases hmem with h | h <;> subst h <;>
      simp [Settings.get_work_duration, Settings.set_work_duration,
        Database.get_int, Database.get_set_same, AVAILABLE_WORK_MODES,
        show pyInt (pyStr 25) = some 25 from rfl,
        show pyInt (pyStr 45) = some 45 from rfl]
  · simp [Settings.get_work_duration, Settings.set_work_duration,
      Database.get_int, Database.get_set_same, hd,
      show pyInt (pyStr 45) = some 45 from rfl]

/-- **C9**: saving an empty focus text stores an empty row; `get_focus()`
then returns `""`, and the raw `Database.get` returns the stored `some ""`
rather than falling back to any absent-key default. -/
theorem empty_focus_roundtrip (db : Database) (dflt : String) :
    Settings.get_focus (Settings.save_focus db "") = "" ∧
    Database.get (Settings.save_focus db "") Settings.FOCUS = some "" ∧
    (Database.get (Settings.save_focus db "") Settings.FOCUS).getD dflt = "" := by
  refine ⟨?_, ?_, ?_⟩ <;>
    simp [Settings.get_focus, Settings.save_focus, Database.get_set_same]

end TakeBreak
